import Mathlib

/-!
Verification of the alert evaluation and notification pipeline of the
Crypto-Tracker repository.

The definitions below are a shallow embedding of the JavaScript source:
* `backend/src/models/Alert.js` — the `Alert` mongoose model with its
  methods `shouldTrigger`, `trigger`, `pause`, `resume`, `addPriceHistory`;
* `backend/src/services/cryptoService.js` — the `AlertService` monitor
  (`updatePrices`, `processAlert`, `triggerAlert`, `sendAlertNotifications`,
  `updateAlert`, `deleteAlert`);
* the notification service (`sendEmail`, `sendSMS`, `sendPushNotification`,
  `checkRateLimit`, `updateRateLimit`).

Modelling conventions: JavaScript numbers are modelled as rationals (ℚ),
timestamps as integers (milliseconds), optional document fields as `Option`.
A JavaScript comparison against `undefined` evaluates to `false` (NaN
semantics), which the embedding renders as the `none` branch returning
`false`.  Thrown exceptions are modelled with `Except`; a `try/catch` block
is a `match` on the `Except` value.
-/

namespace CryptoTracker

/-- One per-channel notification preference record:
`{ enabled, sent, sentAt }` in the `notifications` subdocument of the
alert schema. -/
structure NotifChannel where
  enabled : Bool
  sent : Bool
  sentAt : Option Int
  deriving Repr, DecidableEq

/-- The `notifications` subdocument: email / sms / push channels. -/
structure Notifications where
  email : NotifChannel
  sms : NotifChannel
  push : NotifChannel
  deriving Repr, DecidableEq

/-- The `condition` subdocument of the alert schema.  Every field is
optional in the mongoose schema; which ones are read depends on the
alert's `type`. -/
structure Condition where
  targetPrice : Option ℚ
  currentPrice : Option ℚ
  percentageChange : Option ℚ
  timeframe : String
  volumeThreshold : Option ℚ
  marketCapThreshold : Option ℚ
  deriving Repr, DecidableEq

/-- The `metadata` subdocument: priority, repeat interval in minutes
(0 = one-shot), max triggers, optional expiry timestamp. -/
structure AlertMetadata where
  priority : String
  repeatInterval : Nat
  maxTriggers : Nat
  expiresAt : Option Int
  deriving Repr, DecidableEq

/-- One entry of the bounded `priceHistory` array. -/
structure PricePoint where
  price : ℚ
  timestamp : Int
  source : String
  deriving Repr, DecidableEq

/-- One entry of the append-only `executionLog` array. -/
structure LogEntry where
  action : String
  timestamp : Int
  deriving Repr, DecidableEq

/-- The `Alert` document.  `type` is kept as a raw string because
`shouldTrigger` switches on it with a `default` branch (the mongoose enum
restricts stored values, but the method itself is total over strings). -/
structure Alert where
  id : String
  userId : String
  symbol : String
  type : String
  condition : Condition
  isActive : Bool
  isTriggered : Bool
  triggerCount : Nat
  lastTriggered : Option Int
  notifications : Notifications
  metadata : AlertMetadata
  priceHistory : List PricePoint
  executionLog : List LogEntry
  deriving Repr, DecidableEq

/-- A cached price observation, as written into `this.priceCache`:
`{ price, change24h, volume, marketCap, lastUpdated }`. -/
structure PriceData where
  price : ℚ
  change24h : ℚ
  volume : ℚ
  marketCap : ℚ
  lastUpdated : Int
  deriving Repr, DecidableEq

/-- The expiry precondition of `shouldTrigger`:
`this.metadata.expiresAt && this.metadata.expiresAt < Date.now()`. -/
def isExpired (a : Alert) (now : Int) : Bool :=
  match a.metadata.expiresAt with
  | some e => decide (e < now)
  | none => false

/-- The per-kind `switch` of `Alert.shouldTrigger`.  A comparison whose
condition field is absent is `false` (JavaScript compares against
`undefined`, i.e. NaN, and every NaN comparison is false); the `default`
branch returns `false`. -/
def condEval (ty : String) (c : Condition) (d : PriceData) : Bool :=
  match ty with
  | "price_above" =>
    match c.targetPrice with
    | some t => decide (t ≤ d.price)
    | none => false
  | "price_below" =>
    match c.targetPrice with
    | some t => decide (d.price ≤ t)
    | none => false
  | "price_change" =>
    match c.percentageChange with
    | some p => decide (|p| ≤ |d.change24h|)
    | none => false
  | "volume_spike" =>
    match c.volumeThreshold with
    | some v => decide (v ≤ d.volume)
    | none => false
  | "market_cap_change" =>
    match c.marketCapThreshold with
    | some m => decide (m ≤ d.marketCap)
    | none => false
  | _ => false

/-- `Alert.shouldTrigger(currentData)` from `models/Alert.js`.
Preconditions short-circuit to `false`: inactive or already triggered,
expired, `triggerCount >= metadata.maxTriggers`; otherwise the per-kind
switch decides. -/
def shouldTrigger (a : Alert) (now : Int) (d : PriceData) : Bool :=
  if !a.isActive || a.isTriggered then false
  else if isExpired a now then false
  else if a.metadata.maxTriggers ≤ a.triggerCount then false
  else condEval a.type a.condition d

/-- The five values of the mongoose `type` enum. -/
def knownKinds : List String :=
  ["price_above", "price_below", "price_change", "volume_spike", "market_cap_change"]

/-- `Alert.trigger(currentData)` from `models/Alert.js`, without the
persistence call.  Sets `isTriggered`, increments `triggerCount`, stamps
`lastTriggered`, copies `currentData.price` into `condition.currentPrice`
when the price is truthy (nonzero), appends a `triggered` entry to the
execution log.  The second component models the `setTimeout` scheduled
when `metadata.repeatInterval > 0`: the instant (milliseconds) at which
the delayed callback will reset `isTriggered` to `false`. -/
def trigger (a : Alert) (now : Int) (d : PriceData) : Alert × Option Int :=
  let a1 : Alert :=
    { a with
      isTriggered := true
      triggerCount := a.triggerCount + 1
      lastTriggered := some now }
  let a2 : Alert :=
    if d.price = 0 then a1
    else { a1 with condition := { a1.condition with currentPrice := some d.price } }
  let a3 : Alert :=
    { a2 with executionLog := a2.executionLog ++ [⟨"triggered", now⟩] }
  (a3, if 0 < a.metadata.repeatInterval
       then some (now + (a.metadata.repeatInterval : Int) * 60 * 1000)
       else none)

/-- The body of the delayed callback scheduled by `trigger` when
`repeatInterval > 0`: `this.isTriggered = false; this.save();`. -/
def fireResetTimer (a : Alert) : Alert :=
  { a with isTriggered := false }

/-- `Alert.addPriceHistory(price, source)`: push the new entry, then keep
only the last 100 entries (`this.priceHistory.slice(-100)`). -/
def addPriceHistory (a : Alert) (price : ℚ) (now : Int) (source : String) : Alert :=
  let h := a.priceHistory ++ [⟨price, now, source⟩]
  { a with priceHistory := if 100 < h.length then h.drop (h.length - 100) else h }

/-- One per-alert event of the monitor's life: an evaluation pass of
`processAlert` against a cached observation at a given instant (evaluate
`shouldTrigger`, and on `true` apply `trigger`), a price-history append,
or the firing of a scheduled `isTriggered` reset timer. -/
inductive MonEvent where
  | eval (now : Int) (d : PriceData)
  | history (price : ℚ) (now : Int) (source : String)
  | timerFire
  deriving Repr

/-- Apply one monitor event to an alert. -/
def applyEvent (a : Alert) : MonEvent → Alert
  | .eval now d => if shouldTrigger a now d then (trigger a now d).1 else a
  | .history p now src => addPriceHistory a p now src
  | .timerFire => fireResetTimer a

/-- Run a sequence of monitor events over an alert. -/
def runEvents (a : Alert) (evs : List MonEvent) : Alert :=
  evs.foldl applyEvent a

/-! ### String-keyed maps

The monitor keeps its working sets in JavaScript `Map`s keyed by strings
(alert id, symbol, rate-limit key).  They are embedded as association
lists with `get` / `set` / `delete`. -/

/-- `Map.prototype.get`. -/
def mapGet {α : Type} (m : List (String × α)) (k : String) : Option α :=
  match m with
  | [] => none
  | (k1, v) :: rest => if k1 = k then some v else mapGet rest k

/-- `Map.prototype.set`. -/
def mapSet {α : Type} (m : List (String × α)) (k : String) (v : α) :
    List (String × α) :=
  match m with
  | [] => [(k, v)]
  | (k1, v1) :: rest => if k1 = k then (k, v) :: rest else (k1, v1) :: mapSet rest k v

/-- `Map.prototype.delete`. -/
def mapDelete {α : Type} (m : List (String × α)) (k : String) :
    List (String × α) :=
  match m with
  | [] => []
  | (k1, v1) :: rest => if k1 = k then mapDelete rest k else (k1, v1) :: mapDelete rest k

/-! ### Notification service

Embedding of `NotificationService`: `checkRateLimit`, `updateRateLimit`,
`sendEmail`, `sendSMS`, `sendPushNotification`.  External delivery (the
SendGrid / Twilio call) is an oracle boolean: `true` means the sink call
succeeded, `false` that it threw (which the service catches, returning a
failure result).  A rate-limit exceedance, by contrast, is a `throw`
(`Except.error`) that escapes the service function. -/

/-- The user fields read by `sendAlertNotifications`:
`preferences.notifications` opt-ins, email address, phone number
(`none` models a falsy `user.phoneNumber`). -/
structure UserRec where
  id : String
  email : String
  phoneNumber : Option String
  prefEmail : Bool
  prefSms : Bool
  prefPush : Bool
  deriving Repr, DecidableEq

/-- One cached rate-limit record `{ count, windowStart }`. -/
structure RateEntry where
  count : Nat
  windowStart : Int
  deriving Repr, DecidableEq

/-- Mutable state of the notification service: the service-enabled flags
and the rate-limit cache keyed by `type_identifier`. -/
structure NotifState where
  emailEnabled : Bool
  smsEnabled : Bool
  rate : List (String × RateEntry)
  deriving Repr, DecidableEq

/-- `this.rateLimits[type].limit`: email 100/h, sms 20/h, push 200/h. -/
def rateLimitOf (ty : String) : Nat :=
  if ty = "email" then 100 else if ty = "sms" then 20 else 200

/-- `this.rateLimits[type].window`: 3600000 ms for every channel. -/
def rateWindowOf (_ty : String) : Int :=
  3600000

/-- `NotificationService.checkRateLimit(type, identifier)`: reset the
window if expired (writing a fresh `{count: 0, windowStart: now}` record
and allowing the send), otherwise refuse when the counted sends have
reached the limit. -/
def checkRateLimit (ns : NotifState) (ty id : String) (now : Int) :
    Bool × NotifState :=
  let key := ty ++ "_" ++ id
  let cached := mapGet ns.rate key
  let currentCount := match cached with | some c => c.count | none => 0
  let windowStart := match cached with | some c => c.windowStart | none => now
  if rateWindowOf ty < now - windowStart then
    (true, { ns with rate := mapSet ns.rate key ⟨0, now⟩ })
  else if rateLimitOf ty ≤ currentCount then
    (false, ns)
  else
    (true, ns)

/-- `NotificationService.updateRateLimit(type, identifier)`: increment
the counted sends, keeping the window start. -/
def updateRateLimit (ns : NotifState) (ty id : String) (now : Int) : NotifState :=
  let key := ty ++ "_" ++ id
  let cached := mapGet ns.rate key
  let currentCount := match cached with | some c => c.count | none => 0
  let windowStart := match cached with | some c => c.windowStart | none => now
  { ns with rate := mapSet ns.rate key ⟨currentCount + 1, windowStart⟩ }

/-- Result of one channel send that did not throw: the new service state,
whether the external sink was actually invoked, and the `success` flag of
the returned result object. -/
structure SendResult where
  ns : NotifState
  sinkInvoked : Bool
  success : Bool
  deriving Repr, DecidableEq

/-- `NotificationService.sendEmail`: disabled service returns a failure
result; an exceeded rate limit throws (`Except.error`, carrying the
service state); otherwise the sink is invoked and a delivery failure is
caught and returned as a failure result (the rate-limit counter is
incremented only after a successful send). -/
def sendEmail (ns : NotifState) (now : Int) (dest : String) (deliverOk : Bool) :
    Except NotifState SendResult :=
  if !ns.emailEnabled then .ok ⟨ns, false, false⟩
  else
    let r := checkRateLimit ns "email" dest now
    if !r.1 then .error r.2
    else if deliverOk then .ok ⟨updateRateLimit r.2 "email" dest now, true, true⟩
    else .ok ⟨r.2, true, false⟩

/-- `NotificationService.sendSMS`: same shape as `sendEmail` with the
`sms` limits. -/
def sendSMS (ns : NotifState) (now : Int) (dest : String) (deliverOk : Bool) :
    Except NotifState SendResult :=
  if !ns.smsEnabled then .ok ⟨ns, false, false⟩
  else
    let r := checkRateLimit ns "sms" dest now
    if !r.1 then .error r.2
    else if deliverOk then .ok ⟨updateRateLimit r.2 "sms" dest now, true, true⟩
    else .ok ⟨r.2, true, false⟩

/-- `NotificationService.sendPushNotification`: an exceeded rate limit
throws; otherwise the (simulated) push always succeeds. -/
def sendPushNotification (ns : NotifState) (now : Int) (userId : String) :
    Except NotifState SendResult :=
  let r := checkRateLimit ns "push" userId now
  if !r.1 then .error r.2
  else .ok ⟨updateRateLimit r.2 "push" userId now, true, true⟩

/-- Record `{sent: true, sentAt: now}` on the email channel. -/
def setEmailSent (a : Alert) (now : Int) : Alert :=
  { a with notifications :=
      { a.notifications with email := { a.notifications.email with sent := true, sentAt := some now } } }

/-- Record `{sent: true, sentAt: now}` on the sms channel. -/
def setSmsSent (a : Alert) (now : Int) : Alert :=
  { a with notifications :=
      { a.notifications with sms := { a.notifications.sms with sent := true, sentAt := some now } } }

/-- Record `{sent: true, sentAt: now}` on the push channel. -/
def setPushSent (a : Alert) (now : Int) : Alert :=
  { a with notifications :=
      { a.notifications with push := { a.notifications.push with sent := true, sentAt := some now } } }

/-- Outcome of `sendAlertNotifications`: the (possibly mutated) alert,
the notification-service state, the channels whose external sink was
invoked (in invocation order), and whether the final `alert.save()`
inside the `try` block was reached. -/
structure NotifOutcome where
  alert : Alert
  ns : NotifState
  attempted : List String
  saved : Bool
  deriving Repr, DecidableEq

/-- Running state threaded through the `try` block of
`sendAlertNotifications`: the alert being mutated, the service state and
the channels whose sink was invoked so far. -/
structure TryState where
  alert : Alert
  ns : NotifState
  attempted : List String
  deriving Repr, DecidableEq

/-- The email paragraph of the `try` block: guarded by the channel's
`enabled` flag and the user's opt-in; on a non-throwing send the
`{sent, sentAt}` flags are recorded (whatever the returned `success`
was); a throw carries the state out to the `catch`. -/
def emailStep (user : UserRec) (now : Int) (emailOk : Bool) (st : TryState) :
    Except TryState TryState :=
  if st.alert.notifications.email.enabled && user.prefEmail then
    match sendEmail st.ns now user.email emailOk with
    | .error ns1 => .error ⟨st.alert, ns1, st.attempted⟩
    | .ok r =>
      .ok ⟨setEmailSent st.alert now, r.ns,
           st.attempted ++ if r.sinkInvoked then ["email"] else []⟩
  else .ok st

/-- The sms paragraph of the `try` block: additionally guarded by a
truthy `user.phoneNumber`. -/
def smsStep (user : UserRec) (now : Int) (smsOk : Bool) (st : TryState) :
    Except TryState TryState :=
  if st.alert.notifications.sms.enabled && user.prefSms && user.phoneNumber.isSome then
    match sendSMS st.ns now (user.phoneNumber.getD "") smsOk with
    | .error ns1 => .error ⟨st.alert, ns1, st.attempted⟩
    | .ok r =>
      .ok ⟨setSmsSent st.alert now, r.ns,
           st.attempted ++ if r.sinkInvoked then ["sms"] else []⟩
  else .ok st

/-- The push paragraph of the `try` block. -/
def pushStep (user : UserRec) (now : Int) (st : TryState) :
    Except TryState TryState :=
  if st.alert.notifications.push.enabled && user.prefPush then
    match sendPushNotification st.ns now user.id with
    | .error ns1 => .error ⟨st.alert, ns1, st.attempted⟩
    | .ok r =>
      .ok ⟨setPushSent st.alert now, r.ns,
           st.attempted ++ if r.sinkInvoked then ["push"] else []⟩
  else .ok st

/-- The state a `try` paragraph leaves behind, whether it completed
(`ok`) or threw (`error`). -/
def tryOut : Except TryState TryState → TryState
  | .ok st => st
  | .error st => st

/-- `AlertService.sendAlertNotifications(alert, currentData)` from
`cryptoService.js`.  A missing (unpopulated) user aborts.  Otherwise one
`try` block runs the email, sms and push paragraphs in that order and
finally saves the alert.  Any `throw` (a rate-limit exceedance inside
the notification service) jumps to the shared `catch`, skipping every
later paragraph and the save.  `emailOk` / `smsOk` are the delivery
oracles of the two real sinks. -/
def sendAlertNotifications (a : Alert) (u : Option UserRec) (ns : NotifState)
    (now : Int) (emailOk smsOk : Bool) : NotifOutcome :=
  match u with
  | none => ⟨a, ns, [], false⟩
  | some user =>
    match (emailStep user now emailOk ⟨a, ns, []⟩).bind
            (fun st => (smsStep user now smsOk st).bind (pushStep user now)) with
    | .ok st => ⟨st.alert, st.ns, st.attempted, true⟩
    | .error st => ⟨st.alert, st.ns, st.attempted, false⟩

/-! ### Monitor state and operations -/

/-- One coin record as returned by `cryptoService.getCurrentPrices`:
`{ usd, usd_24h_change, usd_24h_vol, usd_market_cap }`, the last three
optional (defaulted to 0 with `|| 0` when cached). -/
structure ApiCoinData where
  usd : ℚ
  usd24hChange : Option ℚ
  usd24hVol : Option ℚ
  usdMarketCap : Option ℚ
  deriving Repr, DecidableEq

/-- Conversion of an API record into a price-cache entry, as in
`updatePrices` / `processAlert`. -/
def toCacheEntry (now : Int) (c : ApiCoinData) : PriceData :=
  ⟨c.usd, c.usd24hChange.getD 0, c.usd24hVol.getD 0, c.usdMarketCap.getD 0, now⟩

/-- The mutable state owned by the `AlertService` monitor:
`activeAlerts` (the in-memory active-alert index, keyed by alert id),
`priceCache` (keyed by lower-cased symbol), the persistent alert store
(the mongo collection, keyed by alert id), the pending `setTimeout`
re-arm timers, and the notification-service state. -/
structure MonitorState where
  activeAlerts : List (String × Alert)
  priceCache : List (String × PriceData)
  store : List (String × Alert)
  timers : List (String × Int)
  notif : NotifState
  deriving Repr, DecidableEq

/-- `AlertService.updatePrices()` for one refresh cycle.  `fetched` is
the outcome of the batched `getCurrentPrices` call: `Except.error`
models a thrown/rejected fetch, which the surrounding `catch` swallows
after logging, leaving every cache entry in place; on success each
returned symbol's entry is overwritten. -/
def updatePrices (s : MonitorState) (now : Int)
    (fetched : Except String (List (String × ApiCoinData))) : MonitorState :=
  if s.activeAlerts.isEmpty then s
  else
    match fetched with
    | .error _ => s
    | .ok priceData =>
      { s with priceCache :=
          priceData.foldl (fun c p => mapSet c p.1 (toCacheEntry now p.2)) s.priceCache }

/-- `AlertService.triggerAlert(alert, currentData)`: run `alert.trigger`
(which saves the alert and, when `repeatInterval > 0`, schedules the
re-arm timer), run `sendAlertNotifications` (which saves again when its
`try` block completes), then delete the alert from `activeAlerts` when
`metadata.repeatInterval === 0`.  The socket emit and user-statistics
update touch only external collaborators and are not modelled. -/
def triggerAlert (s : MonitorState) (a : Alert) (d : PriceData) (now : Int)
    (u : Option UserRec) (emailOk smsOk : Bool) : MonitorState :=
  let tr := trigger a now d
  let s1 : MonitorState :=
    { s with
      store := mapSet s.store a.id tr.1
      timers := match tr.2 with
        | some t1 => s.timers ++ [(a.id, t1)]
        | none => s.timers }
  let o := sendAlertNotifications tr.1 u s1.notif now emailOk smsOk
  let s2 : MonitorState :=
    { s1 with
      notif := o.ns
      store := if o.saved then mapSet s1.store a.id o.alert else s1.store }
  if a.metadata.repeatInterval = 0 then
    { s2 with activeAlerts := mapDelete s2.activeAlerts a.id }
  else s2

/-- `AlertService.updateAlert(alertId, updateData)`:
`Alert.findByIdAndUpdate` (modelled as applying `updateData` to the
stored document; `none` models the thrown `Alert not found`), then the
index maintenance — re-add the updated alert when it is active and
untriggered, delete it otherwise. -/
def updateAlert (s : MonitorState) (alertId : String) (updateData : Alert → Alert) :
    Option (MonitorState × Alert) :=
  match mapGet s.store alertId with
  | none => none
  | some old =>
    let a := updateData old
    let s1 : MonitorState := { s with store := mapSet s.store alertId a }
    if a.isActive && !a.isTriggered then
      some ({ s1 with activeAlerts := mapSet s1.activeAlerts alertId a }, a)
    else
      some ({ s1 with activeAlerts := mapDelete s1.activeAlerts alertId }, a)

/-! ### Concrete fixtures used by witnesses and counterexamples -/

/-- An enabled, not-yet-sent channel record. -/
def chanOn : NotifChannel := ⟨true, false, none⟩

/-- A disabled channel record. -/
def chanOff : NotifChannel := ⟨false, false, none⟩

/-- The `price_above` BTC alert of spec scenario 1: target 45000,
active, default `repeatInterval` 0 and `maxTriggers` 1. -/
def btcAlert : Alert :=
  { id := "a1", userId := "u1", symbol := "BTC", type := "price_above"
    condition := ⟨some 45000, none, none, "24h", none, none⟩
    isActive := true, isTriggered := false, triggerCount := 0, lastTriggered := none
    notifications := ⟨chanOn, chanOff, chanOn⟩
    metadata := ⟨"medium", 0, 1, none⟩
    priceHistory := [], executionLog := [] }

/-- The same alert with `repeatInterval` 60 (spec scenario 2) and the
default `maxTriggers` 1. -/
def btcRepeat1 : Alert :=
  { btcAlert with metadata := ⟨"medium", 60, 1, none⟩ }

/-- The repeat alert with headroom: `maxTriggers` 2. -/
def btcRepeat2 : Alert :=
  { btcAlert with metadata := ⟨"medium", 60, 2, none⟩ }

/-- A price observation at a given price (other fields zero). -/
def obsAt (p : ℚ) : PriceData := ⟨p, 0, 0, 0, 0⟩

/-- A user opted in to every channel. -/
def wUser : UserRec := ⟨"u1", "u@x", some "+15551234567", true, true, true⟩

/-- Notification-service state whose email window for `wUser` is
exhausted: 100 emails counted since window start 0. -/
def cexNS : NotifState := ⟨true, true, [("email_u@x", ⟨100, 0⟩)]⟩

/-- The BTC alert with both email and sms channels enabled. -/
def cexAlert : Alert :=
  { btcAlert with notifications := ⟨chanOn, chanOn, chanOff⟩ }

/-- A monitor state holding `btcAlert` in both the index and the store. -/
def wState : MonitorState :=
  ⟨[("a1", btcAlert)], [], [("a1", btcAlert)], [], ⟨true, true, []⟩⟩

/-- The update payload `{ isActive: false }` used by the pause route. -/
def deactivate (x : Alert) : Alert := { x with isActive := false }

/-- The result of deactivating `btcAlert` through `updateAlert` on
`wState` (total by construction: the alert is present). -/
def wUpdated : MonitorState × Alert :=
  match updateAlert wState "a1" deactivate with
  | some r => r
  | none => (wState, btcAlert)

/-- Fold of `addPriceHistory` over a call sequence, as performed by the
evaluation cycles (`updateAlertPriceHistory` once per cycle). -/
def runPriceHistory (a : Alert) (calls : List (ℚ × Int × String)) : Alert :=
  calls.foldl (fun b c => addPriceHistory b c.1 c.2.1 c.2.2) a

/-- A two-cycle event sequence: the spec scenario 1 feed (44000 then
45250). -/
def wEvents : List MonEvent :=
  [.eval 0 (obsAt 44000), .eval 30000 (obsAt 45250)]

/-- A three-call price-history sequence. -/
def wCalls : List (ℚ × Int × String) :=
  [(44000, 0, "coingecko"), (45250, 30000, "coingecko"), (45100, 60000, "coingecko")]

/-! ## Helper lemmas -/

/-- Any failed precondition short-circuits `shouldTrigger` to `false`. -/
theorem stFalse_of_precond (a : Alert) (now : Int) (d : PriceData)
    (h : a.isActive = false ∨ a.isTriggered = true ∨ isExpired a now = true ∨
      a.metadata.maxTriggers ≤ a.triggerCount) :
    shouldTrigger a now d = false := by
  unfold shouldTrigger
  rcases h with h | h | h | h <;> simp [h]

/-- When every precondition passes, `shouldTrigger` is the per-kind
switch. -/
theorem stEq_condEval (a : Alert) (now : Int) (d : PriceData)
    (hact : a.isActive = true) (htrig : a.isTriggered = false)
    (hexp : isExpired a now = false)
    (hmax : a.triggerCount < a.metadata.maxTriggers) :
    shouldTrigger a now d = condEval a.type a.condition d := by
  simp [shouldTrigger, hact, htrig, hexp, Nat.not_le.mpr hmax]

/-- A false per-kind switch makes `shouldTrigger` false outright. -/
theorem stFalse_of_condEval_false (a : Alert) (now : Int) (d : PriceData)
    (h : condEval a.type a.condition d = false) :
    shouldTrigger a now d = false := by
  unfold shouldTrigger
  simp [h]

/-- The `default` branch: a kind outside the enum never triggers. -/
theorem condEval_unknown (ty : String) (c : Condition) (d : PriceData)
    (h : ty ∉ knownKinds) : condEval ty c d = false := by
  simp only [knownKinds, List.mem_cons, List.not_mem_nil, or_false, not_or] at h
  obtain ⟨h1, h2, h3, h4, h5⟩ := h
  unfold condEval
  split <;> simp_all

/-- A true `shouldTrigger` implies strict trigger-count headroom. -/
theorem stTrue_lt_max (a : Alert) (now : Int) (d : PriceData)
    (h : shouldTrigger a now d = true) :
    a.triggerCount < a.metadata.maxTriggers := by
  by_contra hc
  rw [stFalse_of_precond a now d (Or.inr (Or.inr (Or.inr (Nat.le_of_not_lt hc))))] at h
  exact Bool.false_ne_true h

/-! ## Claims -/

/-- C1.  For every alert that passes the evaluator's preconditions
(active, untriggered, unexpired, trigger count below `maxTriggers`) and
whose condition carries the field its kind requires, `shouldTrigger`
returns `true` exactly per the kind table: `price_above` iff
`price ≥ targetPrice` (boundary inclusive), `price_below` iff
`price ≤ targetPrice`, `price_change` iff
`|change24h| ≥ |percentageChange|` (so a negative change of larger
magnitude triggers), `volume_spike` iff `volume ≥ volumeThreshold`,
`market_cap_change` iff `marketCap ≥ marketCapThreshold`. -/
theorem shouldTrigger_kind_table (a : Alert) (now : Int) (d : PriceData)
    (hact : a.isActive = true) (htrig : a.isTriggered = false)
    (hexp : isExpired a now = false)
    (hmax : a.triggerCount < a.metadata.maxTriggers) :
    (∀ t : ℚ, a.type = "price_above" → a.condition.targetPrice = some t →
      (shouldTrigger a now d = true ↔ t ≤ d.price)) ∧
    (∀ t : ℚ, a.type = "price_below" → a.condition.targetPrice = some t →
      (shouldTrigger a now d = true ↔ d.price ≤ t)) ∧
    (∀ p : ℚ, a.type = "price_change" → a.condition.percentageChange = some p →
      (shouldTrigger a now d = true ↔ |p| ≤ |d.change24h|)) ∧
    (∀ v : ℚ, a.type = "volume_spike" → a.condition.volumeThreshold = some v →
      (shouldTrigger a now d = true ↔ v ≤ d.volume)) ∧
    (∀ m : ℚ, a.type = "market_cap_change" → a.condition.marketCapThreshold = some m →
      (shouldTrigger a now d = true ↔ m ≤ d.marketCap)) := by
  have he := stEq_condEval a now d hact htrig hexp hmax
  refine ⟨?_, ?_, ?_, ?_, ?_⟩ <;> intro x hty hf <;>
    rw [he, hty] <;> simp [condEval, hf]

/-- Witness for C1: the scenario-1 BTC alert at price 45250 triggers iff
45000 ≤ 45250. -/
theorem shouldTrigger_kind_table_witness :
    shouldTrigger btcAlert 0 (obsAt 45250) = true ↔ (45000 : ℚ) ≤ 45250 :=
  (shouldTrigger_kind_table btcAlert 0 (obsAt 45250) rfl rfl rfl
    (by decide)).1 45000 rfl rfl

/-- C2.  For every alert with `active=false`, or already triggered, or
with `expiresAt` in the past, or with `triggerCount ≥ maxTriggers`,
`shouldTrigger` returns `false` for every observation, regardless of the
alert's kind or condition payload. -/
theorem shouldTrigger_short_circuit (a : Alert) (now : Int) (d : PriceData)
    (h : a.isActive = false ∨ a.isTriggered = true ∨ isExpired a now = true ∨
      a.metadata.maxTriggers ≤ a.triggerCount) :
    shouldTrigger a now d = false :=
  stFalse_of_precond a now d h

/-- Witness for C2: the deactivated BTC alert does not trigger even at a
qualifying price. -/
theorem shouldTrigger_short_circuit_witness :
    shouldTrigger { btcAlert with isActive := false } 0 (obsAt 45250) = false :=
  shouldTrigger_short_circuit { btcAlert with isActive := false } 0 (obsAt 45250)
    (Or.inl rfl)

/-- C9.  `shouldTrigger` is total over malformed input: an alert whose
condition lacks the field its kind requires, and an alert whose kind is
outside the known variant set, both evaluate to `false` — in the
embedding the function is total by construction (nothing throws), and
the malformed alert is inert. -/
theorem shouldTrigger_inert_on_malformed (a : Alert) (now : Int) (d : PriceData) :
    ((a.type = "price_above" ∨ a.type = "price_below") →
      a.condition.targetPrice = none → shouldTrigger a now d = false) ∧
    (a.type = "price_change" → a.condition.percentageChange = none →
      shouldTrigger a now d = false) ∧
    (a.type = "volume_spike" → a.condition.volumeThreshold = none →
      shouldTrigger a now d = false) ∧
    (a.type = "market_cap_change" → a.condition.marketCapThreshold = none →
      shouldTrigger a now d = false) ∧
    (a.type ∉ knownKinds → shouldTrigger a now d = false) := by
  refine ⟨?_, ?_, ?_, ?_, ?_⟩
  · rintro (hty | hty) hf <;>
      exact stFalse_of_condEval_false _ _ _ (by rw [hty]; simp [condEval, hf])
  · intro hty hf
    exact stFalse_of_condEval_false _ _ _ (by rw [hty]; simp [condEval, hf])
  · intro hty hf
    exact stFalse_of_condEval_false _ _ _ (by rw [hty]; simp [condEval, hf])
  · intro hty hf
    exact stFalse_of_condEval_false _ _ _ (by rw [hty]; simp [condEval, hf])
  · intro h
    exact stFalse_of_condEval_false _ _ _ (condEval_unknown _ _ _ h)

/-- Witness for C9: an alert with an out-of-enum kind is inert. -/
theorem shouldTrigger_inert_on_malformed_witness :
    shouldTrigger { btcAlert with type := "frobnicate" } 0 (obsAt 1) = false :=
  (shouldTrigger_inert_on_malformed { btcAlert with type := "frobnicate" } 0
    (obsAt 1)).2.2.2.2 (by decide)

/-! ## Field bookkeeping of `trigger` -/

/-- `trigger` sets the `isTriggered` flag. -/
theorem trigger_isTriggered (a : Alert) (now : Int) (d : PriceData) :
    (trigger a now d).1.isTriggered = true := by
  unfold trigger
  split <;> rfl

/-- `trigger` increments the trigger count. -/
theorem trigger_triggerCount (a : Alert) (now : Int) (d : PriceData) :
    (trigger a now d).1.triggerCount = a.triggerCount + 1 := by
  unfold trigger
  split <;> rfl

/-- `trigger` leaves the metadata untouched. -/
theorem trigger_metadata (a : Alert) (now : Int) (d : PriceData) :
    (trigger a now d).1.metadata = a.metadata := by
  unfold trigger
  split <;> rfl

/-- `trigger` leaves the kind untouched. -/
theorem trigger_type (a : Alert) (now : Int) (d : PriceData) :
    (trigger a now d).1.type = a.type := by
  unfold trigger
  split <;> rfl

/-- `trigger` leaves the active flag untouched. -/
theorem trigger_isActive (a : Alert) (now : Int) (d : PriceData) :
    (trigger a now d).1.isActive = a.isActive := by
  unfold trigger
  split <;> rfl

/-- `trigger` touches only `currentPrice` inside the condition. -/
theorem trigger_condition (a : Alert) (now : Int) (d : PriceData) :
    (trigger a now d).1.condition = a.condition ∨
    (trigger a now d).1.condition = { a.condition with currentPrice := some d.price } := by
  unfold trigger
  split
  · exact Or.inl rfl
  · exact Or.inr rfl

/-- The per-kind switch never reads `currentPrice`. -/
theorem condEval_set_currentPrice (ty : String) (c : Condition) (x : Option ℚ)
    (d : PriceData) :
    condEval ty { c with currentPrice := x } d = condEval ty c d := by
  cases c
  rfl

/-- The per-kind switch after a trigger is the original switch. -/
theorem condEval_trigger (a : Alert) (now : Int) (d d2 : PriceData) :
    condEval (trigger a now d).1.type (trigger a now d).1.condition d2 =
      condEval a.type a.condition d2 := by
  rw [trigger_type]
  rcases trigger_condition a now d with h | h
  · rw [h]
  · rw [h, condEval_set_currentPrice]

/-- Expiry depends only on the metadata. -/
theorem isExpired_eq_of_metadata (a b : Alert) (t : Int) (h : a.metadata = b.metadata) :
    isExpired a t = isExpired b t := by
  unfold isExpired
  rw [h]

/-! ## C6: the trigger-count invariant -/

/-- One monitor event keeps the metadata. -/
theorem applyEvent_metadata (a : Alert) (e : MonEvent) :
    (applyEvent a e).metadata = a.metadata := by
  cases e with
  | eval t d =>
    dsimp only [applyEvent]
    split
    · exact trigger_metadata a t d
    · rfl
  | history p t src => rfl
  | timerFire => rfl

/-- One monitor event preserves `triggerCount ≤ maxTriggers`. -/
theorem applyEvent_count (a : Alert) (e : MonEvent)
    (h : a.triggerCount ≤ a.metadata.maxTriggers) :
    (applyEvent a e).triggerCount ≤ (applyEvent a e).metadata.maxTriggers := by
  cases e with
  | eval t d =>
    dsimp only [applyEvent]
    split
    case isTrue hst =>
      rw [trigger_triggerCount, trigger_metadata]
      exact Nat.succ_le_of_lt (stTrue_lt_max a t d hst)
    case isFalse => exact h
  | history p t src => exact h
  | timerFire => exact h

/-- The invariant holds along any event sequence. -/
theorem runEvents_count (a : Alert) (evs : List MonEvent)
    (h : a.triggerCount ≤ a.metadata.maxTriggers) :
    (runEvents a evs).triggerCount ≤ (runEvents a evs).metadata.maxTriggers := by
  induction evs generalizing a with
  | nil => exact h
  | cons e evs ih => exact ih (applyEvent a e) (applyEvent_count a e h)

/-- C6.  For every alert (starting within its budget) and every sequence
of monitor evaluation cycles, history appends and re-arm timer firings,
`triggerCount` never exceeds `maxTriggers`; and once `triggerCount`
reaches `maxTriggers` the alert cannot trigger again (so the count is
not incremented further) until manually reset. -/
theorem triggerCount_never_exceeds (a : Alert) (evs : List MonEvent)
    (h : a.triggerCount ≤ a.metadata.maxTriggers) :
    (runEvents a evs).triggerCount ≤ (runEvents a evs).metadata.maxTriggers ∧
    ∀ (t : Int) (d : PriceData),
      (runEvents a evs).metadata.maxTriggers ≤ (runEvents a evs).triggerCount →
      shouldTrigger (runEvents a evs) t d = false :=
  ⟨runEvents_count a evs h,
   fun t d hm => stFalse_of_precond _ t d (Or.inr (Or.inr (Or.inr hm)))⟩

/-- Witness for C6: the scenario-1 alert over a two-cycle feed. -/
theorem triggerCount_never_exceeds_witness :
    (runEvents btcAlert wEvents).triggerCount ≤
      (runEvents btcAlert wEvents).metadata.maxTriggers :=
  (triggerCount_never_exceeds btcAlert wEvents (by decide)).1

/-! ## C7: the bounded FIFO price history

`slice(-100)` is `List.rtake 100`: the last (most recent) 100 entries. -/

/-- A list already within the cap is unchanged by `rtake`. -/
theorem rtake_of_length_le {α : Type} (l : List α) (n : ℕ) (h : l.length ≤ n) :
    l.rtake n = l := by
  unfold List.rtake
  rw [Nat.sub_eq_zero_of_le h, List.drop_zero]

/-- `rtake n` never yields more than `n` entries. -/
theorem length_rtake_le {α : Type} (l : List α) (n : ℕ) : (l.rtake n).length ≤ n := by
  unfold List.rtake
  rw [List.length_drop]
  omega

/-- Trimming to the last `n`, appending, and trimming again is the same
as trimming the whole appended list: per-write trimming composes. -/
theorem rtake_append_rtake {α : Type} (L M : List α) (n : ℕ) :
    (L.rtake n ++ M).rtake n = (L ++ M).rtake n := by
  simp only [List.rtake_eq_reverse_take_reverse, List.reverse_append, List.reverse_reverse,
    List.take_append_eq_append_take, List.take_take]
  congr 3
  omega

/-- One `addPriceHistory` call yields exactly the last 100 entries of
the appended history. -/
theorem addPriceHistory_priceHistory (a : Alert) (p : ℚ) (t : Int) (src : String) :
    (addPriceHistory a p t src).priceHistory =
      (a.priceHistory ++ [(⟨p, t, src⟩ : PricePoint)]).rtake 100 := by
  unfold addPriceHistory List.rtake
  dsimp only
  split
  · rfl
  case isFalse h =>
    rw [Nat.sub_eq_zero_of_le (Nat.le_of_not_lt h), List.drop_zero]

/-- Any fold of `addPriceHistory` calls yields exactly the last 100
entries of the whole appended history. -/
theorem runPriceHistory_rtake (a : Alert) (calls : List (ℚ × Int × String))
    (h : a.priceHistory.length ≤ 100) :
    (runPriceHistory a calls).priceHistory =
      (a.priceHistory ++ calls.map fun c => (⟨c.1, c.2.1, c.2.2⟩ : PricePoint)).rtake 100 := by
  induction calls generalizing a with
  | nil => simpa using (rtake_of_length_le a.priceHistory 100 h).symm
  | cons c cs ih =>
    have h1 : (addPriceHistory a c.1 c.2.1 c.2.2).priceHistory.length ≤ 100 := by
      rw [addPriceHistory_priceHistory]
      exact length_rtake_le _ _
    have h2 := ih (addPriceHistory a c.1 c.2.1 c.2.2) h1
    simp only [runPriceHistory, List.foldl_cons] at h2 ⊢
    rw [h2, addPriceHistory_priceHistory, rtake_append_rtake]
    simp [List.append_assoc]

/-- C7.  For every alert (whose stored history respects the cap) and
every sequence of `addPriceHistory` calls, the price-history list never
exceeds 100 entries, and eviction is FIFO: the retained list is exactly
the suffix of the 100 most recent observations of the full appended
history (`rtake 100`), the oldest entries having been dropped first. -/
theorem priceHistory_bounded_fifo (a : Alert) (calls : List (ℚ × Int × String))
    (h : a.priceHistory.length ≤ 100) :
    (runPriceHistory a calls).priceHistory.length ≤ 100 ∧
    (runPriceHistory a calls).priceHistory =
      (a.priceHistory ++ calls.map fun c => (⟨c.1, c.2.1, c.2.2⟩ : PricePoint)).rtake 100 := by
  have h2 := runPriceHistory_rtake a calls h
  exact ⟨h2 ▸ length_rtake_le _ _, h2⟩

/-- Witness for C7: three history appends on the scenario-1 alert. -/
theorem priceHistory_bounded_fifo_witness :
    (runPriceHistory btcAlert wCalls).priceHistory.length ≤ 100 :=
  (priceHistory_bounded_fifo btcAlert wCalls (by decide)).1

/-! ## C4: repeat-interval re-arming -/

/-- A triggered alert never fires. -/
theorem st_triggered_false (a : Alert) (now : Int) (d : PriceData)
    (h : a.isTriggered = true) : shouldTrigger a now d = false :=
  stFalse_of_precond a now d (Or.inr (Or.inl h))

/-- With `repeatInterval > 0`, `trigger` schedules the reset callback
`repeatInterval * 60 * 1000` milliseconds ahead. -/
theorem trigger_schedule (a : Alert) (now : Int) (d : PriceData)
    (h : 0 < a.metadata.repeatInterval) :
    (trigger a now d).2 = some (now + (a.metadata.repeatInterval : Int) * 60 * 1000) := by
  unfold trigger
  simp [h]

/-- Counterexample to C4 as frozen.  The claim quantifies over every
alert with `repeatInterval = N > 0`, but an alert that keeps the schema
default `maxTriggers = 1` has exhausted its budget after the first
trigger: at minute 61, after the scheduled reset has fired, a
still-qualifying observation does NOT re-trigger (`shouldTrigger` is
false because `triggerCount = 1 ≥ maxTriggers = 1`). -/
theorem repeat_rearm_cex :
    0 < btcRepeat1.metadata.repeatInterval ∧
    shouldTrigger btcRepeat1 0 (obsAt 45250) = true ∧
    condEval btcRepeat1.type btcRepeat1.condition (obsAt 45250) = true ∧
    shouldTrigger (fireResetTimer (trigger btcRepeat1 0 (obsAt 45250)).1) 3660000
      (obsAt 45250) = false := by
  decide

/-- C4 (amended).  For every alert with `repeatInterval = N > 0`,
triggering schedules the `isTriggered` flag to reset after N minutes
(`trigger` returns the reset instant `now + N*60*1000`); until the
scheduled callback fires, repeated evaluation returns `false` at every
instant, so no notification is re-sent; and once the callback has reset
the flag, a still-qualifying observation triggers again — provided the
alert has trigger budget left (`triggerCount + 1 < maxTriggers`) and has
not expired.  (The unamended claim fails for alerts at the default
`maxTriggers = 1`, see the counterexample.) -/
theorem repeat_interval_rearm (a : Alert) (t t1 t2 : Int) (d d1 d2 : PriceData)
    (hrep : 0 < a.metadata.repeatInterval)
    (hact : a.isActive = true) (hexp : isExpired a t2 = false)
    (hmax : a.triggerCount + 1 < a.metadata.maxTriggers)
    (hqual : condEval a.type a.condition d2 = true) :
    (trigger a t d).2 = some (t + (a.metadata.repeatInterval : Int) * 60 * 1000) ∧
    shouldTrigger (trigger a t d).1 t1 d1 = false ∧
    shouldTrigger (fireResetTimer (trigger a t d).1) t2 d2 = true := by
  refine ⟨trigger_schedule a t d hrep,
    st_triggered_false _ t1 d1 (trigger_isTriggered a t d), ?_⟩
  have hmeta : (fireResetTimer (trigger a t d).1).metadata = a.metadata :=
    trigger_metadata a t d
  have hA : (fireResetTimer (trigger a t d).1).isActive = true :=
    (trigger_isActive a t d).trans hact
  have hE : isExpired (fireResetTimer (trigger a t d).1) t2 = false :=
    (isExpired_eq_of_metadata _ a t2 hmeta).trans hexp
  have hM : (fireResetTimer (trigger a t d).1).triggerCount <
      (fireResetTimer (trigger a t d).1).metadata.maxTriggers := by
    have hc : (fireResetTimer (trigger a t d).1).triggerCount = a.triggerCount + 1 :=
      trigger_triggerCount a t d
    rw [hc, hmeta]
    exact hmax
  rw [stEq_condEval _ t2 d2 hA rfl hE hM]
  exact (condEval_trigger a t d d2).trans hqual

/-- Witness for C4 (amended): the repeat alert with `maxTriggers = 2`
re-triggers at minute 61. -/
theorem repeat_interval_rearm_witness :
    shouldTrigger (fireResetTimer (trigger btcRepeat2 0 (obsAt 45250)).1) 3660000
      (obsAt 45250) = true :=
  (repeat_interval_rearm btcRepeat2 0 1800000 3660000 (obsAt 45250) (obsAt 45250)
    (obsAt 45250) (by decide) rfl rfl (by decide) (by decide)).2.2

/-! ## C8: price-refresh failure keeps the cache -/

/-- C8.  When the batched price fetch fails for the cycle, `updatePrices`
leaves the entire monitor state — in particular every `priceCache`
entry — unchanged, and (being a total function into `MonitorState`) it
propagates no exception to the caller: the last successfully written
observation per symbol is still what `priceCache` returns for the
subsequent evaluation cycle. -/
theorem updatePrices_failure_keeps_cache (s : MonitorState) (now : Int) (msg : String) :
    updatePrices s now (Except.error msg) = s ∧
    ∀ sym, mapGet (updatePrices s now (Except.error msg)).priceCache sym =
      mapGet s.priceCache sym := by
  have h : updatePrices s now (Except.error msg) = s := by
    unfold updatePrices
    split <;> rfl
  exact ⟨h, fun sym => by rw [h]⟩

/-! ## Map bookkeeping -/

/-- Reading back the key just set. -/
theorem mapGet_mapSet_self {α : Type} (m : List (String × α)) (k : String) (v : α) :
    mapGet (mapSet m k v) k = some v := by
  induction m with
  | nil => simp [mapSet, mapGet]
  | cons kv rest ih =>
    obtain ⟨k1, v1⟩ := kv
    by_cases h : k1 = k
    · simp [mapSet, mapGet, h]
    · simp [mapSet, mapGet, h, ih]

/-- Setting one key leaves every other key's entry alone. -/
theorem mapGet_mapSet_ne {α : Type} (m : List (String × α)) (k k2 : String) (v : α)
    (h : k ≠ k2) : mapGet (mapSet m k v) k2 = mapGet m k2 := by
  induction m with
  | nil => simp [mapSet, mapGet, h]
  | cons kv rest ih =>
    obtain ⟨k1, v1⟩ := kv
    by_cases h1 : k1 = k
    · simp [mapSet, mapGet, h1, h]
    · by_cases h2 : k1 = k2 <;> simp [mapSet, mapGet, h1, h2, ih, Ne.symm h]

/-- A deleted key reads back absent. -/
theorem mapGet_mapDelete_self {α : Type} (m : List (String × α)) (k : String) :
    mapGet (mapDelete m k) k = none := by
  induction m with
  | nil => simp [mapDelete, mapGet]
  | cons kv rest ih =>
    obtain ⟨k1, v1⟩ := kv
    by_cases h : k1 = k
    · simp [mapDelete, h, ih]
    · simp [mapDelete, mapGet, h, ih]

/-- Deleting one key leaves every other key's entry alone. -/
theorem mapGet_mapDelete_ne {α : Type} (m : List (String × α)) (k k2 : String)
    (h : k ≠ k2) : mapGet (mapDelete m k) k2 = mapGet m k2 := by
  induction m with
  | nil => simp [mapDelete, mapGet]
  | cons kv rest ih =>
    obtain ⟨k1, v1⟩ := kv
    by_cases h1 : k1 = k
    · subst h1
      simp [mapDelete, mapGet, Ne.symm h, ih, h]
    · by_cases h2 : k1 = k2 <;> simp [mapDelete, mapGet, h1, h2, ih, Ne.symm h]

/-! ## C10: updateAlert index maintenance -/

/-- C10.  After every successful `updateAlert(alertId, update)`, the
updated alert is present in the in-memory active-alert index exactly
when it is active and untriggered (and the stored entry is the updated
document); an update that deactivates it or marks it triggered removes
it from the index; and no other index entry is touched. -/
theorem updateAlert_index_membership (s : MonitorState) (alertId : String)
    (f : Alert → Alert) (s1 : MonitorState) (a : Alert)
    (h : updateAlert s alertId f = some (s1, a)) :
    (a.isActive = true ∧ a.isTriggered = false →
      mapGet s1.activeAlerts alertId = some a) ∧
    (a.isActive = false ∨ a.isTriggered = true →
      mapGet s1.activeAlerts alertId = none) ∧
    ∀ k, k ≠ alertId → mapGet s1.activeAlerts k = mapGet s.activeAlerts k := by
  unfold updateAlert at h
  cases hg : mapGet s.store alertId with
  | none =>
    rw [hg] at h
    exact absurd h (by simp)
  | some old =>
    rw [hg] at h
    dsimp only at h
    by_cases hb : (f old).isActive && !(f old).isTriggered
    · rw [if_pos hb] at h
      simp only [Option.some.injEq, Prod.mk.injEq] at h
      obtain ⟨hs1, ha⟩ := h
      subst hs1
      subst ha
      simp only [Bool.and_eq_true, Bool.not_eq_true'] at hb
      refine ⟨fun _ => mapGet_mapSet_self _ _ _, ?_, ?_⟩
      · rintro (hA | hT)
        · rw [hb.1] at hA
          exact absurd hA (by simp)
        · rw [hb.2] at hT
          exact absurd hT (by simp)
      · intro k hk
        exact mapGet_mapSet_ne _ _ _ _ (Ne.symm hk)
    · rw [if_neg hb] at h
      simp only [Option.some.injEq, Prod.mk.injEq] at h
      obtain ⟨hs1, ha⟩ := h
      subst hs1
      subst ha
      simp only [Bool.and_eq_true, Bool.not_eq_true', not_and] at hb
      refine ⟨?_, fun _ => mapGet_mapDelete_self _ _, ?_⟩
      · rintro ⟨hA, hT⟩
        exact absurd hT (hb hA)
      · intro k hk
        exact mapGet_mapDelete_ne _ _ _ (Ne.symm hk)

/-- Witness for C10: deactivating `btcAlert` removes it from the
index. -/
theorem updateAlert_index_membership_witness :
    mapGet wUpdated.1.activeAlerts "a1" = none :=
  (updateAlert_index_membership wState "a1" deactivate wUpdated.1 wUpdated.2
    (by rfl)).2.1 (Or.inl rfl)

/-! ## C5: the one-shot trigger sequence

The notification paragraphs touch only the `notifications` subdocument
of the alert, so the trigger flags written by `alert.trigger` survive
into whatever version of the alert ends up saved. -/

/-- The email paragraph keeps the trigger flags of the alert. -/
theorem emailStep_core (user : UserRec) (now : Int) (ok : Bool) (st : TryState) :
    (tryOut (emailStep user now ok st)).alert.isTriggered = st.alert.isTriggered ∧
    (tryOut (emailStep user now ok st)).alert.triggerCount = st.alert.triggerCount := by
  unfold emailStep
  split
  · cases hse : sendEmail st.ns now user.email ok <;> simp [tryOut, setEmailSent]
  · simp [tryOut]

/-- The sms paragraph keeps the trigger flags of the alert. -/
theorem smsStep_core (user : UserRec) (now : Int) (ok : Bool) (st : TryState) :
    (tryOut (smsStep user now ok st)).alert.isTriggered = st.alert.isTriggered ∧
    (tryOut (smsStep user now ok st)).alert.triggerCount = st.alert.triggerCount := by
  unfold smsStep
  split
  · cases hse : sendSMS st.ns now (user.phoneNumber.getD "") ok <;>
      simp [tryOut, setSmsSent]
  · simp [tryOut]

/-- The push paragraph keeps the trigger flags of the alert. -/
theorem pushStep_core (user : UserRec) (now : Int) (st : TryState) :
    (tryOut (pushStep user now st)).alert.isTriggered = st.alert.isTriggered ∧
    (tryOut (pushStep user now st)).alert.triggerCount = st.alert.triggerCount := by
  unfold pushStep
  split
  · cases hse : sendPushNotification st.ns now user.id <;> simp [tryOut, setPushSent]
  · simp [tryOut]

/-- The whole `try` block keeps the trigger flags of the alert. -/
theorem chain_core (user : UserRec) (now : Int) (e1 e2 : Bool) (st0 : TryState) :
    (tryOut ((emailStep user now e1 st0).bind
        (fun st => (smsStep user now e2 st).bind (pushStep user now)))).alert.isTriggered
      = st0.alert.isTriggered ∧
    (tryOut ((emailStep user now e1 st0).bind
        (fun st => (smsStep user now e2 st).bind (pushStep user now)))).alert.triggerCount
      = st0.alert.triggerCount := by
  have hA := emailStep_core user now e1 st0
  cases h1 : emailStep user now e1 st0 with
  | error st1 =>
    rw [h1] at hA
    simpa [Except.bind, tryOut, h1] using hA
  | ok st1 =>
    rw [h1] at hA
    simp only [tryOut] at hA
    have hB := smsStep_core user now e2 st1
    cases h2 : smsStep user now e2 st1 with
    | error st2 =>
      rw [h2] at hB
      simp only [tryOut] at hB
      simp [Except.bind, tryOut, h1, h2, hB.1.trans hA.1, hB.2.trans hA.2]
    | ok st2 =>
      rw [h2] at hB
      simp only [tryOut] at hB
      have hC := pushStep_core user now st2
      cases h3 : pushStep user now st2 with
      | error st3 =>
        rw [h3] at hC
        simp only [tryOut] at hC
        simp [Except.bind, tryOut, h1, h2, h3, (hC.1.trans hB.1).trans hA.1,
          (hC.2.trans hB.2).trans hA.2]
      | ok st3 =>
        rw [h3] at hC
        simp only [tryOut] at hC
        simp [Except.bind, tryOut, h1, h2, h3, (hC.1.trans hB.1).trans hA.1,
          (hC.2.trans hB.2).trans hA.2]

/-- `sendAlertNotifications` keeps the trigger flags of the alert. -/
theorem sendAlertNotifications_core (a : Alert) (u : Option UserRec) (ns : NotifState)
    (now : Int) (e1 e2 : Bool) :
    (sendAlertNotifications a u ns now e1 e2).alert.isTriggered = a.isTriggered ∧
    (sendAlertNotifications a u ns now e1 e2).alert.triggerCount = a.triggerCount := by
  unfold sendAlertNotifications
  cases u with
  | none => exact ⟨rfl, rfl⟩
  | some user =>
    dsimp only
    have h := chain_core user now e1 e2 ⟨a, ns, []⟩
    cases hc : (emailStep user now e1 ⟨a, ns, []⟩).bind
        (fun st => (smsStep user now e2 st).bind (pushStep user now)) with
    | ok st =>
      rw [hc] at h
      simp only [tryOut] at h
      exact h
    | error st =>
      rw [hc] at h
      simp only [tryOut] at h
      exact h

/-- C5.  For every alert with `repeatInterval = 0` (one-shot), the full
trigger sequence (`triggerAlert`) removes the alert from the in-memory
active-alert index but does not delete it from the persistent store:
afterwards `activeAlerts` no longer holds the id (so it is no longer
evaluated) while the store still returns the alert, with the trigger
updates (`isTriggered`, incremented `triggerCount`) saved. -/
theorem one_shot_trigger_frame (s : MonitorState) (a : Alert) (d : PriceData)
    (now : Int) (u : Option UserRec) (e1 e2 : Bool)
    (hrep : a.metadata.repeatInterval = 0) :
    mapGet (triggerAlert s a d now u e1 e2).activeAlerts a.id = none ∧
    ∃ a1, mapGet (triggerAlert s a d now u e1 e2).store a.id = some a1 ∧
      a1.isTriggered = true ∧ a1.triggerCount = a.triggerCount + 1 := by
  have hcore := sendAlertNotifications_core (trigger a now d).1 u s.notif now e1 e2
  unfold triggerAlert
  dsimp only
  rw [if_pos hrep]
  refine ⟨mapGet_mapDelete_self _ _, ?_⟩
  by_cases hsv :
    (sendAlertNotifications (trigger a now d).1 u s.notif now e1 e2).saved = true
  · refine ⟨(sendAlertNotifications (trigger a now d).1 u s.notif now e1 e2).alert,
      ?_, ?_, ?_⟩
    · rw [if_pos hsv]
      exact mapGet_mapSet_self _ _ _
    · exact hcore.1.trans (trigger_isTriggered a now d)
    · exact hcore.2.trans (trigger_triggerCount a now d)
  · refine ⟨(trigger a now d).1, ?_, trigger_isTriggered a now d,
      trigger_triggerCount a now d⟩
    rw [if_neg hsv]
    exact mapGet_mapSet_self _ _ _

/-- Witness for C5: triggering the one-shot scenario-1 alert at 45250
leaves the index without `a1`. -/
theorem one_shot_trigger_frame_witness :
    mapGet (triggerAlert wState btcAlert (obsAt 45250) 0 (some wUser) true
      true).activeAlerts "a1" = none :=
  (one_shot_trigger_frame wState btcAlert (obsAt 45250) 0 (some wUser) true true rfl).1

/-! ## C3: channel independence under rate limiting -/

/-- `checkRateLimit` touches only the rate cache, never the
service-enabled flags. -/
theorem checkRateLimit_flags (ns : NotifState) (ty id : String) (now : Int) :
    (checkRateLimit ns ty id now).2.emailEnabled = ns.emailEnabled ∧
    (checkRateLimit ns ty id now).2.smsEnabled = ns.smsEnabled := by
  unfold checkRateLimit
  dsimp only
  split
  · exact ⟨rfl, rfl⟩
  · split <;> exact ⟨rfl, rfl⟩

/-- A throwing push paragraph carries the attempted list unchanged. -/
theorem pushStep_attempted_error (user : UserRec) (now : Int) (st st3 : TryState)
    (h : pushStep user now st = .error st3) : st3.attempted = st.attempted := by
  unfold pushStep at h
  split at h
  · cases hq : sendPushNotification st.ns now user.id with
    | error ns1 =>
      rw [hq] at h
      injection h with h
      rw [← h]
    | ok r =>
      rw [hq] at h
      exact absurd h (by simp)
  · exact absurd h (by simp)

/-- A completing push paragraph at most appends `"push"` to the
attempted list. -/
theorem pushStep_attempted_ok (user : UserRec) (now : Int) (st st3 : TryState)
    (h : pushStep user now st = .ok st3) :
    st3.attempted = st.attempted ∨ st3.attempted = st.attempted ++ ["push"] := by
  unfold pushStep at h
  split at h
  · cases hq : sendPushNotification st.ns now user.id with
    | error ns1 =>
      rw [hq] at h
      exact absurd h (by simp)
    | ok r =>
      rw [hq] at h
      injection h with h
      rw [← h]
      dsimp only
      cases hi : r.sinkInvoked
      · left
        simp
      · right
        simp
  · injection h with h
    rw [← h]
    exact Or.inl rfl

/-- When the sms channel is enabled, opted-in, configured and under its
rate limit, the sms paragraph completes and actually invokes the sink,
whatever the delivery outcome. -/
theorem smsStep_attempts (user : UserRec) (now : Int) (ok : Bool) (st : TryState)
    (hguard : (st.alert.notifications.sms.enabled && user.prefSms &&
      user.phoneNumber.isSome) = true)
    (hsvc2 : st.ns.smsEnabled = true)
    (hrlOk : (checkRateLimit st.ns "sms" (user.phoneNumber.getD "") now).1 = true) :
    ∃ st2, smsStep user now ok st = .ok st2 ∧
      st2.attempted = st.attempted ++ ["sms"] := by
  unfold smsStep sendSMS
  rw [if_pos hguard, hsvc2]
  cases ok <;> simp [hrlOk]

/-- Counterexample to C3 as frozen.  With the sms channel enabled,
opted-in, configured and under its own rate limit, an exhausted email
window (100 sends counted since window start) makes `sendEmail` throw;
the shared `try/catch` of `sendAlertNotifications` then skips the sms
(and push) paragraphs entirely: no channel attempts delivery, refuting
"one channel's rate-limit skip never prevents another channel from
attempting delivery". -/
theorem notify_rate_limit_cex :
    cexAlert.notifications.sms.enabled = true ∧
    wUser.prefSms = true ∧
    wUser.phoneNumber.isSome = true ∧
    cexNS.smsEnabled = true ∧
    (checkRateLimit cexNS "email" wUser.email 0).1 = false ∧
    "sms" ∉ (sendAlertNotifications cexAlert (some wUser) cexNS 0 true true).attempted := by
  decide

/-- C3 (corrected).  The three channels run in the fixed order email,
sms, push inside one shared `try/catch`.  (1) If the email channel is
enabled and opted-in but its sliding-window rate limit is exceeded, its
send throws and every later channel is skipped: no external sink is
invoked at all and the notification-flags save is not reached.  (2) An
ordinary delivery failure, by contrast, is returned as a result object
and does not block later channels: with the email send merely failing
(not throwing), an enabled, opted-in sms channel under its rate limit
still attempts delivery. -/
theorem notify_channel_dependence (a : Alert) (user : UserRec) (ns : NotifState)
    (now : Int) (e1 e2 : Bool)
    (hg : (a.notifications.email.enabled && user.prefEmail) = true)
    (hsvc : ns.emailEnabled = true) :
    ((checkRateLimit ns "email" user.email now).1 = false →
      (sendAlertNotifications a (some user) ns now e1 e2).attempted = [] ∧
      (sendAlertNotifications a (some user) ns now e1 e2).saved = false) ∧
    ((checkRateLimit ns "email" user.email now).1 = true → e1 = false →
      ns.smsEnabled = true →
      (a.notifications.sms.enabled && (user.prefSms &&
        user.phoneNumber.isSome)) = true →
      (checkRateLimit (checkRateLimit ns "email" user.email now).2 "sms"
        (user.phoneNumber.getD "") now).1 = true →
      "sms" ∈ (sendAlertNotifications a (some user) ns now e1 e2).attempted) := by
  constructor
  · intro hrl
    have hse : sendEmail ns now user.email e1 =
        .error (checkRateLimit ns "email" user.email now).2 := by
      unfold sendEmail
      rw [hsvc]
      simp [hrl]
    have hes : emailStep user now e1 ⟨a, ns, []⟩ =
        .error ⟨a, (checkRateLimit ns "email" user.email now).2, []⟩ := by
      unfold emailStep
      rw [if_pos hg, hse]
    have ho : sendAlertNotifications a (some user) ns now e1 e2 =
        ⟨a, (checkRateLimit ns "email" user.email now).2, [], false⟩ := by
      unfold sendAlertNotifications
      dsimp only
      rw [hes]
      rfl
    rw [ho]
    exact ⟨rfl, rfl⟩
  · intro hrl he1 hsms hgs hrl2
    have hse : sendEmail ns now user.email e1 =
        .ok ⟨(checkRateLimit ns "email" user.email now).2, true, false⟩ := by
      unfold sendEmail
      rw [hsvc, he1]
      simp [hrl]
    have hes : emailStep user now e1 ⟨a, ns, []⟩ =
        .ok ⟨setEmailSent a now, (checkRateLimit ns "email" user.email now).2, ["email"]⟩ := by
      unfold emailStep
      rw [if_pos hg, hse]
      rfl
    have hsmsEn : (checkRateLimit ns "email" user.email now).2.smsEnabled = true :=
      (checkRateLimit_flags ns "email" user.email now).2.trans hsms
    have hgs2 : ((setEmailSent a now).notifications.sms.enabled && user.prefSms &&
        user.phoneNumber.isSome) = true := by
      simp only [Bool.and_eq_true] at hgs ⊢
      exact ⟨⟨hgs.1, hgs.2.1⟩, hgs.2.2⟩
    obtain ⟨st2, hsm, hatt⟩ := smsStep_attempts user now e2
      ⟨setEmailSent a now, (checkRateLimit ns "email" user.email now).2, ["email"]⟩
      hgs2 hsmsEn hrl2
    unfold sendAlertNotifications
    dsimp only
    rw [hes]
    simp only [Except.bind]
    rw [hsm]
    simp only [Except.bind]
    cases hp : pushStep user now st2 with
    | error st3 =>
      have h3 := pushStep_attempted_error user now st2 st3 hp
      simp [h3, hatt]
    | ok st3 =>
      have h3 := pushStep_attempted_ok user now st2 st3 hp
      rcases h3 with h3 | h3 <;> simp [h3, hatt]

/-- Witness for C3 (corrected): at the exhausted email window of the
counterexample fixture, nothing is attempted and nothing is saved. -/
theorem notify_channel_dependence_witness :
    (sendAlertNotifications cexAlert (some wUser) cexNS 0 true true).attempted = [] :=
  ((notify_channel_dependence cexAlert wUser cexNS 0 true true rfl rfl).1 (by decide)).1

end CryptoTracker
